import Mathlib

/-!
Verification of `grpc_binder::TransportStreamReceiverImpl`
(`src/core/ext/transport/binder/utils/transport_stream_receiver_impl.cc`).

The receiver is a three-channel per-stream rendezvous: wire-side `Notify*`
calls and consumer-side `Register*` calls are matched per stream for initial
metadata, message data and trailing metadata.  The shallow embedding below
models the receiver state (callback slots, pending queues, the
`recv_message_cancelled_` set and the construction-time flags) and each public
operation as a pure function returning the new state together with the list of
observable events the operation produces: accept-stream signals and callback
invocations.  Consumer callbacks are opaque identifiers (`Nat`); an invocation
event records the callback identifier, the argument it receives and whether
the source invokes it inside the `grpc_core::MutexLock` scope (`under_lock`).
`GPR_ASSERT` failures and popping an empty `std::queue` (which cannot occur on
reachable states) are modelled as `none`.
-/

namespace GrpcBinder

/-- `StreamIdentifier`: an opaque comparable stream token (`int` in the source). -/
abbrev StreamIdentifier := Nat

/-- `Metadata`: an ordered sequence of key/value pairs, treated as an opaque payload. -/
abbrev Metadata := List (String × String)

/-- An `absl::Status`: a numeric code (`0` = OK, `1` = CANCELLED, ...) plus a message. -/
structure AbslStatus where
  code : Nat
  message : String
  deriving DecidableEq, Repr

/-- `absl::CancelledError msg`: a CANCELLED (code 1) status carrying `msg`. -/
def cancelledError (message : String) : AbslStatus :=
  { code := 1, message := message }

/-- `TransportStreamReceiver::kGrpcBinderTransportCancelledGracefully`. -/
def kGrpcBinderTransportCancelledGracefully : String :=
  "grpc-binder-transport: cancelled gracefully"

/-- `absl::StatusOr<T>`: either a value of type `T` or an error status.  An
`absl::Status` argument passed where a `StatusOr` is expected (as in
`CancelStream`) converts to the `err` case. -/
inductive StatusOr (α : Type) where
  | ok (val : α)
  | err (status : AbslStatus)
  deriving DecidableEq, Repr

/-- Observable effects of one public operation, in the order they happen:
the accept-stream signal (`accept_stream_callback_()`) and consumer-callback
invocations.  `under_lock` records whether the source performs the invocation
inside the `grpc_core::MutexLock` scope of the operation. -/
inductive Event where
  | acceptStream
  | recvInitialMetadata (cb : Nat) (arg : StatusOr Metadata) (under_lock : Bool)
  | recvMessage (cb : Nat) (arg : StatusOr String) (under_lock : Bool)
  | recvTrailingMetadata (cb : Nat) (arg : StatusOr Metadata) (status : Int) (under_lock : Bool)
  deriving DecidableEq, Repr

/-- Point update of a per-stream table (`std::map` insert / assign / erase:
`erase` stores the empty value of `α`, e.g. `none` or `false`). -/
def mapSet {α : Type} (f : StreamIdentifier → α) (k : StreamIdentifier) (v : α) :
    StreamIdentifier → α :=
  fun x => if x = k then v else f x

/-- `pending_[id].push(v)`: `std::map::operator[]` default-constructs an empty
queue when the entry is absent, then pushes at the back. -/
def queuePush {α : Type} (q : Option (List α)) (v : α) : Option (List α) :=
  some (q.getD [] ++ [v])

/-- The state of one `TransportStreamReceiverImpl`: the construction-time role
flag `is_client_`, whether the injected `accept_stream_callback_` is non-null,
the three callback-slot maps, the `recv_message_cancelled_` set and the three
pending-result queues.  A map entry that is absent is `none` (resp. `false`
for the set); pending queues are kept non-empty by the source (it erases the
entry when the queue empties), so `some []` never arises on reachable states.
The mutex `m_` has no explicit representation; the lock discipline is recorded
by the `under_lock` flag on invocation events. -/
structure TransportStreamReceiverImpl where
  is_client_ : Bool
  accept_stream_callback_ : Bool
  initial_metadata_cbs_ : StreamIdentifier → Option Nat
  message_cbs_ : StreamIdentifier → Option Nat
  trailing_metadata_cbs_ : StreamIdentifier → Option Nat
  recv_message_cancelled_ : StreamIdentifier → Bool
  pending_initial_metadata_ : StreamIdentifier → Option (List (StatusOr Metadata))
  pending_message_ : StreamIdentifier → Option (List (StatusOr String))
  pending_trailing_metadata_ : StreamIdentifier → Option (List (StatusOr Metadata × Int))

/-- A freshly constructed receiver: empty maps, role and accept-callback
presence fixed at construction. -/
def initReceiver (is_client accept_stream_callback : Bool) : TransportStreamReceiverImpl :=
  { is_client_ := is_client
    accept_stream_callback_ := accept_stream_callback
    initial_metadata_cbs_ := fun _ => none
    message_cbs_ := fun _ => none
    trailing_metadata_cbs_ := fun _ => none
    recv_message_cancelled_ := fun _ => false
    pending_initial_metadata_ := fun _ => none
    pending_message_ := fun _ => none
    pending_trailing_metadata_ := fun _ => none }

/-- The accept-stream side effect at the top of `NotifyRecvInitialMetadata`:
`if (!is_client_ && accept_stream_callback_) accept_stream_callback_();`,
executed before the lock is taken. -/
def acceptEvents (s : TransportStreamReceiverImpl) : List Event :=
  if !s.is_client_ && s.accept_stream_callback_ then [Event.acceptStream] else []

/-- `TransportStreamReceiverImpl::RegisterRecvInitialMetadata`.  Asserts the
slot is empty (`none` on violation); pops the oldest pending result and
invokes `cb` with it after releasing the lock, erasing the queue entry when it
empties; otherwise stores `cb`. -/
def RegisterRecvInitialMetadata (s : TransportStreamReceiverImpl) (id : StreamIdentifier)
    (cb : Nat) : Option (TransportStreamReceiverImpl × List Event) :=
  if (s.initial_metadata_cbs_ id).isSome then none
  else
    match s.pending_initial_metadata_ id with
    | none =>
        some ({ s with initial_metadata_cbs_ := mapSet s.initial_metadata_cbs_ id (some cb) }, [])
    | some [] => none
    | some (r :: rest) =>
        let q := if rest.isEmpty then none else some rest
        some ({ s with pending_initial_metadata_ := mapSet s.pending_initial_metadata_ id q },
              [Event.recvInitialMetadata cb r false])

/-- `TransportStreamReceiverImpl::RegisterRecvMessage`.  Asserts the slot is
empty; pops the oldest pending message if any; otherwise, when the stream is
in `recv_message_cancelled_`, invokes `cb` with the graceful-cancellation
error — in the source this invocation happens while the mutex is still held —
and otherwise stores `cb`. -/
def RegisterRecvMessage (s : TransportStreamReceiverImpl) (id : StreamIdentifier)
    (cb : Nat) : Option (TransportStreamReceiverImpl × List Event) :=
  if (s.message_cbs_ id).isSome then none
  else
    match s.pending_message_ id with
    | none =>
        if s.recv_message_cancelled_ id then
          some (s, [Event.recvMessage cb
            (StatusOr.err (cancelledError kGrpcBinderTransportCancelledGracefully)) true])
        else
          some ({ s with message_cbs_ := mapSet s.message_cbs_ id (some cb) }, [])
    | some [] => none
    | some (r :: rest) =>
        let q := if rest.isEmpty then none else some rest
        some ({ s with pending_message_ := mapSet s.pending_message_ id q },
              [Event.recvMessage cb r false])

/-- `TransportStreamReceiverImpl::RegisterRecvTrailingMetadata`.  Same
single-slot rule as the initial-metadata channel; the buffered value carries
the integer status code alongside the metadata result. -/
def RegisterRecvTrailingMetadata (s : TransportStreamReceiverImpl) (id : StreamIdentifier)
    (cb : Nat) : Option (TransportStreamReceiverImpl × List Event) :=
  if (s.trailing_metadata_cbs_ id).isSome then none
  else
    match s.pending_trailing_metadata_ id with
    | none =>
        some ({ s with trailing_metadata_cbs_ := mapSet s.trailing_metadata_cbs_ id (some cb) }, [])
    | some [] => none
    | some (r :: rest) =>
        let q := if rest.isEmpty then none else some rest
        some ({ s with pending_trailing_metadata_ := mapSet s.pending_trailing_metadata_ id q },
              [Event.recvTrailingMetadata cb r.1 r.2 false])

/-- `TransportStreamReceiverImpl::NotifyRecvInitialMetadata`.  First the
accept-stream side effect (before the lock, on every call), then: if a
callback is registered, erase it and invoke it with the result after
releasing the lock; otherwise enqueue the result. -/
def NotifyRecvInitialMetadata (s : TransportStreamReceiverImpl) (id : StreamIdentifier)
    (initial_metadata : StatusOr Metadata) : TransportStreamReceiverImpl × List Event :=
  match s.initial_metadata_cbs_ id with
  | some cb =>
      ({ s with initial_metadata_cbs_ := mapSet s.initial_metadata_cbs_ id none },
       acceptEvents s ++ [Event.recvInitialMetadata cb initial_metadata false])
  | none =>
      let q := queuePush (s.pending_initial_metadata_ id) initial_metadata
      ({ s with pending_initial_metadata_ := mapSet s.pending_initial_metadata_ id q },
       acceptEvents s)

/-- `TransportStreamReceiverImpl::NotifyRecvMessage`.  If a callback is
registered, erase it and invoke it with the message after releasing the lock;
otherwise enqueue the message. -/
def NotifyRecvMessage (s : TransportStreamReceiverImpl) (id : StreamIdentifier)
    (message : StatusOr String) : TransportStreamReceiverImpl × List Event :=
  match s.message_cbs_ id with
  | some cb =>
      ({ s with message_cbs_ := mapSet s.message_cbs_ id none },
       [Event.recvMessage cb message false])
  | none =>
      let q := queuePush (s.pending_message_ id) message
      ({ s with pending_message_ := mapSet s.pending_message_ id q },
       [])

/-- `TransportStreamReceiverImpl::CancelRecvMessageCallbacksDueToTrailingMetadata`.
Removes a registered message callback, if any, to invoke it (after releasing
the lock) with the graceful-cancellation error, and unconditionally inserts
the stream into `recv_message_cancelled_`.  The pending message queue is not
touched. -/
def CancelRecvMessageCallbacksDueToTrailingMetadata (s : TransportStreamReceiverImpl)
    (id : StreamIdentifier) : TransportStreamReceiverImpl × List Event :=
  match s.message_cbs_ id with
  | some cb =>
      ({ s with message_cbs_ := mapSet s.message_cbs_ id none
                recv_message_cancelled_ := mapSet s.recv_message_cancelled_ id true },
       [Event.recvMessage cb
          (StatusOr.err (cancelledError kGrpcBinderTransportCancelledGracefully)) false])
  | none =>
      ({ s with recv_message_cancelled_ := mapSet s.recv_message_cancelled_ id true }, [])

/-- `TransportStreamReceiverImpl::NotifyRecvTrailingMetadata`.  First runs the
cross-channel message cancellation, then matches or buffers its own
result-plus-status on the trailing-metadata channel. -/
def NotifyRecvTrailingMetadata (s : TransportStreamReceiverImpl) (id : StreamIdentifier)
    (trailing_metadata : StatusOr Metadata) (status : Int) :
    TransportStreamReceiverImpl × List Event :=
  let c := CancelRecvMessageCallbacksDueToTrailingMetadata s id
  match c.1.trailing_metadata_cbs_ id with
  | some cb =>
      ({ c.1 with trailing_metadata_cbs_ := mapSet c.1.trailing_metadata_cbs_ id none },
       c.2 ++ [Event.recvTrailingMetadata cb trailing_metadata status false])
  | none =>
      let q := queuePush (c.1.pending_trailing_metadata_ id) (trailing_metadata, status)
      ({ c.1 with pending_trailing_metadata_ := mapSet c.1.pending_trailing_metadata_ id q },
       c.2)

/-- `TransportStreamReceiverImpl::CancelStream`.  Removes the registered
callbacks of all three channels for `id` under the lock, then invokes each
removed callback (after releasing the lock) with `error`; the
trailing-metadata callback additionally receives status `0`.  Pending queues
and `recv_message_cancelled_` are untouched. -/
def CancelStream (s : TransportStreamReceiverImpl) (id : StreamIdentifier)
    (error : AbslStatus) : TransportStreamReceiverImpl × List Event :=
  let initial_metadata_callback := s.initial_metadata_cbs_ id
  let message_data_callback := s.message_cbs_ id
  let trailing_metadata_callback := s.trailing_metadata_cbs_ id
  let s2 : TransportStreamReceiverImpl :=
    { s with initial_metadata_cbs_ := mapSet s.initial_metadata_cbs_ id none
             message_cbs_ := mapSet s.message_cbs_ id none
             trailing_metadata_cbs_ := mapSet s.trailing_metadata_cbs_ id none }
  let evs1 : List Event :=
    match initial_metadata_callback with
    | some cb => [Event.recvInitialMetadata cb (StatusOr.err error) false]
    | none => []
  let evs2 : List Event :=
    match message_data_callback with
    | some cb => [Event.recvMessage cb (StatusOr.err error) false]
    | none => []
  let evs3 : List Event :=
    match trailing_metadata_callback with
    | some cb => [Event.recvTrailingMetadata cb (StatusOr.err error) 0 false]
    | none => []
  (s2, evs1 ++ evs2 ++ evs3)

/-- `TransportStreamReceiverImpl::Clear`.  Erases every per-stream entry for
`id` in all seven maps; no callback is invoked. -/
def Clear (s : TransportStreamReceiverImpl) (id : StreamIdentifier) :
    TransportStreamReceiverImpl × List Event :=
  ({ s with
      initial_metadata_cbs_ := mapSet s.initial_metadata_cbs_ id none
      message_cbs_ := mapSet s.message_cbs_ id none
      trailing_metadata_cbs_ := mapSet s.trailing_metadata_cbs_ id none
      recv_message_cancelled_ := mapSet s.recv_message_cancelled_ id false
      pending_initial_metadata_ := mapSet s.pending_initial_metadata_ id none
      pending_message_ := mapSet s.pending_message_ id none
      pending_trailing_metadata_ := mapSet s.pending_trailing_metadata_ id none },
   [])

/-- The public operations of the receiver, for statements that quantify over
all of them. -/
inductive Op where
  | registerRecvInitialMetadata (id : StreamIdentifier) (cb : Nat)
  | registerRecvMessage (id : StreamIdentifier) (cb : Nat)
  | registerRecvTrailingMetadata (id : StreamIdentifier) (cb : Nat)
  | notifyRecvInitialMetadata (id : StreamIdentifier) (r : StatusOr Metadata)
  | notifyRecvMessage (id : StreamIdentifier) (r : StatusOr String)
  | notifyRecvTrailingMetadata (id : StreamIdentifier) (r : StatusOr Metadata) (status : Int)
  | cancelStream (id : StreamIdentifier) (error : AbslStatus)
  | clear (id : StreamIdentifier)

/-- One public call on the receiver; `none` models a `GPR_ASSERT` failure. -/
def step (s : TransportStreamReceiverImpl) :
    Op → Option (TransportStreamReceiverImpl × List Event)
  | Op.registerRecvInitialMetadata id cb => RegisterRecvInitialMetadata s id cb
  | Op.registerRecvMessage id cb => RegisterRecvMessage s id cb
  | Op.registerRecvTrailingMetadata id cb => RegisterRecvTrailingMetadata s id cb
  | Op.notifyRecvInitialMetadata id r => some (NotifyRecvInitialMetadata s id r)
  | Op.notifyRecvMessage id r => some (NotifyRecvMessage s id r)
  | Op.notifyRecvTrailingMetadata id r status => some (NotifyRecvTrailingMetadata s id r status)
  | Op.cancelStream id error => some (CancelStream s id error)
  | Op.clear id => some (Clear s id)

/-- Recognizer for the accept-stream signal among an operation's events. -/
def isAcceptStream : Event → Bool
  | Event.acceptStream => true
  | _ => false

/-- C1 counterexample: on a server-role receiver with a non-null
`accept_stream_callback_`, a second `NotifyRecvInitialMetadata` call for the
same stream (here stream 5) emits the accept-stream signal again, contrary to
the claim that the signal fires only on the first call per stream. -/
theorem C1_counterexample :
    Event.acceptStream ∈
      (NotifyRecvInitialMetadata
        ((NotifyRecvInitialMetadata (initReceiver false true) 5 (StatusOr.ok [])).1)
        5 (StatusOr.ok [])).2 := by
  decide

/-- C1 (amended): the accept-stream signal fires exactly once per
`NotifyRecvInitialMetadata` call — on every call, not only the first for the
stream — precisely when the receiver is server-role (`is_client_ = false`)
and the injected `accept_stream_callback_` is non-null; in particular it never
fires for a client-role receiver. -/
theorem C1_accept_signal_every_notify (s : TransportStreamReceiverImpl)
    (id : StreamIdentifier) (r : StatusOr Metadata) :
    (NotifyRecvInitialMetadata s id r).2.filter isAcceptStream =
      (if s.is_client_ = false ∧ s.accept_stream_callback_ = true
        then [Event.acceptStream] else []) := by
  unfold NotifyRecvInitialMetadata acceptEvents
  cases h : s.initial_metadata_cbs_ id <;>
    cases hc : s.is_client_ <;> cases ha : s.accept_stream_callback_ <;>
      simp [isAcceptStream, List.filter_append]

/-- For one rendezvous channel: the pending-result queue entry and the
registered-callback slot of a stream are never simultaneously present. -/
def ChannelInvariant {α : Type} (pending : StreamIdentifier → Option (List α))
    (cbs : StreamIdentifier → Option Nat) : Prop :=
  ∀ id, pending id = none ∨ cbs id = none

/-- The exclusion invariant on all three channels of a receiver. -/
def ReceiverInvariant (s : TransportStreamReceiverImpl) : Prop :=
  ChannelInvariant s.pending_initial_metadata_ s.initial_metadata_cbs_ ∧
  ChannelInvariant s.pending_message_ s.message_cbs_ ∧
  ChannelInvariant s.pending_trailing_metadata_ s.trailing_metadata_cbs_

theorem ChannelInvariant_set_cbs_none {α : Type} {p : StreamIdentifier → Option (List α)}
    {c : StreamIdentifier → Option Nat} (h : ChannelInvariant p c) (id : StreamIdentifier) :
    ChannelInvariant p (mapSet c id none) := by
  intro j
  by_cases hj : j = id
  · subst hj; right; simp [mapSet]
  · rcases h j with h' | h'
    · exact Or.inl h'
    · right; simpa [mapSet, hj] using h'

theorem ChannelInvariant_set_pending_none {α : Type} {p : StreamIdentifier → Option (List α)}
    {c : StreamIdentifier → Option Nat} (h : ChannelInvariant p c) (id : StreamIdentifier) :
    ChannelInvariant (mapSet p id none) c := by
  intro j
  by_cases hj : j = id
  · subst hj; left; simp [mapSet]
  · rcases h j with h' | h'
    · left; simpa [mapSet, hj] using h'
    · exact Or.inr h'

theorem ChannelInvariant_set_pending {α : Type} {p : StreamIdentifier → Option (List α)}
    {c : StreamIdentifier → Option Nat} (h : ChannelInvariant p c) (id : StreamIdentifier)
    (hc : c id = none) (v : Option (List α)) :
    ChannelInvariant (mapSet p id v) c := by
  intro j
  by_cases hj : j = id
  · subst hj; right; exact hc
  · rcases h j with h' | h'
    · left; simpa [mapSet, hj] using h'
    · exact Or.inr h'

theorem ChannelInvariant_set_cbs {α : Type} {p : StreamIdentifier → Option (List α)}
    {c : StreamIdentifier → Option Nat} (h : ChannelInvariant p c) (id : StreamIdentifier)
    (hp : p id = none) (w : Option Nat) :
    ChannelInvariant p (mapSet c id w) := by
  intro j
  by_cases hj : j = id
  · subst hj; left; exact hp
  · rcases h j with h' | h'
    · exact Or.inl h'
    · right; simpa [mapSet, hj] using h'

theorem RegisterRecvInitialMetadata_invariant {s t : TransportStreamReceiverImpl}
    {evs : List Event} {id : StreamIdentifier} {cb : Nat} (h : ReceiverInvariant s)
    (he : RegisterRecvInitialMetadata s id cb = some (t, evs)) : ReceiverInvariant t := by
  obtain ⟨h1, h2, h3⟩ := h
  unfold RegisterRecvInitialMetadata at he
  split at he
  · exact absurd he (by simp)
  next hs =>
    split at he
    next hp =>
      simp only [Option.some.injEq, Prod.mk.injEq] at he
      obtain ⟨rfl, rfl⟩ := he.1, he.2
      exact ⟨ChannelInvariant_set_cbs h1 id hp _, h2, h3⟩
    · exact absurd he (by simp)
    next r rest hp =>
      simp only [Option.some.injEq, Prod.mk.injEq] at he
      obtain ⟨rfl, rfl⟩ := he.1, he.2
      have hc : s.initial_metadata_cbs_ id = none := by
        cases hx : s.initial_metadata_cbs_ id with
        | none => rfl
        | some c => exact absurd (by simp [hx]) hs
      exact ⟨ChannelInvariant_set_pending h1 id hc _, h2, h3⟩

theorem RegisterRecvMessage_invariant {s t : TransportStreamReceiverImpl}
    {evs : List Event} {id : StreamIdentifier} {cb : Nat} (h : ReceiverInvariant s)
    (he : RegisterRecvMessage s id cb = some (t, evs)) : ReceiverInvariant t := by
  obtain ⟨h1, h2, h3⟩ := h
  unfold RegisterRecvMessage at he
  split at he
  · exact absurd he (by simp)
  next hs =>
    split at he
    next hp =>
      split at he
      · simp only [Option.some.injEq, Prod.mk.injEq] at he
        obtain ⟨rfl, rfl⟩ := he.1, he.2
        exact ⟨h1, h2, h3⟩
      · simp only [Option.some.injEq, Prod.mk.injEq] at he
        obtain ⟨rfl, rfl⟩ := he.1, he.2
        exact ⟨h1, ChannelInvariant_set_cbs h2 id hp _, h3⟩
    · exact absurd he (by simp)
    next r rest hp =>
      simp only [Option.some.injEq, Prod.mk.injEq] at he
      obtain ⟨rfl, rfl⟩ := he.1, he.2
      have hc : s.message_cbs_ id = none := by
        cases hx : s.message_cbs_ id with
        | none => rfl
        | some c => exact absurd (by simp [hx]) hs
      exact ⟨h1, ChannelInvariant_set_pending h2 id hc _, h3⟩

theorem RegisterRecvTrailingMetadata_invariant {s t : TransportStreamReceiverImpl}
    {evs : List Event} {id : StreamIdentifier} {cb : Nat} (h : ReceiverInvariant s)
    (he : RegisterRecvTrailingMetadata s id cb = some (t, evs)) : ReceiverInvariant t := by
  obtain ⟨h1, h2, h3⟩ := h
  unfold RegisterRecvTrailingMetadata at he
  split at he
  · exact absurd he (by simp)
  next hs =>
    split at he
    next hp =>
      simp only [Option.some.injEq, Prod.mk.injEq] at he
      obtain ⟨rfl, rfl⟩ := he.1, he.2
      exact ⟨h1, h2, ChannelInvariant_set_cbs h3 id hp _⟩
    · exact absurd he (by simp)
    next r rest hp =>
      simp only [Option.some.injEq, Prod.mk.injEq] at he
      obtain ⟨rfl, rfl⟩ := he.1, he.2
      have hc : s.trailing_metadata_cbs_ id = none := by
        cases hx : s.trailing_metadata_cbs_ id with
        | none => rfl
        | some c => exact absurd (by simp [hx]) hs
      exact ⟨h1, h2, ChannelInvariant_set_pending h3 id hc _⟩

theorem NotifyRecvInitialMetadata_invariant {s : TransportStreamReceiverImpl}
    {id : StreamIdentifier} {r : StatusOr Metadata} (h : ReceiverInvariant s) :
    ReceiverInvariant (NotifyRecvInitialMetadata s id r).1 := by
  obtain ⟨h1, h2, h3⟩ := h
  unfold NotifyRecvInitialMetadata
  split
  next cb hm => exact ⟨ChannelInvariant_set_cbs_none h1 id, h2, h3⟩
  next hm => exact ⟨ChannelInvariant_set_pending h1 id hm _, h2, h3⟩

theorem NotifyRecvMessage_invariant {s : TransportStreamReceiverImpl}
    {id : StreamIdentifier} {r : StatusOr String} (h : ReceiverInvariant s) :
    ReceiverInvariant (NotifyRecvMessage s id r).1 := by
  obtain ⟨h1, h2, h3⟩ := h
  unfold NotifyRecvMessage
  split
  next cb hm => exact ⟨h1, ChannelInvariant_set_cbs_none h2 id, h3⟩
  next hm => exact ⟨h1, ChannelInvariant_set_pending h2 id hm _, h3⟩

theorem CancelRecvMessageCallbacksDueToTrailingMetadata_invariant
    {s : TransportStreamReceiverImpl} (id : StreamIdentifier) (h : ReceiverInvariant s) :
    ReceiverInvariant (CancelRecvMessageCallbacksDueToTrailingMetadata s id).1 := by
  obtain ⟨h1, h2, h3⟩ := h
  unfold CancelRecvMessageCallbacksDueToTrailingMetadata
  split
  next cb hm => exact ⟨h1, ChannelInvariant_set_cbs_none h2 id, h3⟩
  next hm => exact ⟨h1, h2, h3⟩

theorem NotifyRecvTrailingMetadata_invariant {s : TransportStreamReceiverImpl}
    {id : StreamIdentifier} {r : StatusOr Metadata} {status : Int} (h : ReceiverInvariant s) :
    ReceiverInvariant (NotifyRecvTrailingMetadata s id r status).1 := by
  obtain ⟨h1, h2, h3⟩ :=
    CancelRecvMessageCallbacksDueToTrailingMetadata_invariant id h
  simp only [NotifyRecvTrailingMetadata]
  split
  next cb hm => exact ⟨h1, h2, ChannelInvariant_set_cbs_none h3 id⟩
  next hm => exact ⟨h1, h2, ChannelInvariant_set_pending h3 id hm _⟩

theorem CancelStream_invariant {s : TransportStreamReceiverImpl} {id : StreamIdentifier}
    {error : AbslStatus} (h : ReceiverInvariant s) :
    ReceiverInvariant (CancelStream s id error).1 := by
  obtain ⟨h1, h2, h3⟩ := h
  exact ⟨ChannelInvariant_set_cbs_none h1 id, ChannelInvariant_set_cbs_none h2 id,
    ChannelInvariant_set_cbs_none h3 id⟩

theorem Clear_invariant {s : TransportStreamReceiverImpl} {id : StreamIdentifier}
    (h : ReceiverInvariant s) : ReceiverInvariant (Clear s id).1 := by
  obtain ⟨h1, h2, h3⟩ := h
  exact ⟨ChannelInvariant_set_pending_none (ChannelInvariant_set_cbs_none h1 id) id,
    ChannelInvariant_set_pending_none (ChannelInvariant_set_cbs_none h2 id) id,
    ChannelInvariant_set_pending_none (ChannelInvariant_set_cbs_none h3 id) id⟩

/-- C2: for every stream and each of the three channels, the pending-result
queue entry and the registered-callback slot are never simultaneously
non-empty: the invariant holds in the freshly constructed receiver and every
public operation (register, notify, `CancelStream`, `Clear`) preserves it. -/
theorem C2_pending_callback_exclusion :
    (∀ is_client accept_stream_callback : Bool,
        ReceiverInvariant (initReceiver is_client accept_stream_callback)) ∧
    (∀ (o : Op) (s t : TransportStreamReceiverImpl) (evs : List Event),
        ReceiverInvariant s → step s o = some (t, evs) → ReceiverInvariant t) := by
  constructor
  · intro c a
    exact ⟨fun _ => Or.inl rfl, fun _ => Or.inl rfl, fun _ => Or.inl rfl⟩
  · intro o s t evs h he
    cases o with
    | registerRecvInitialMetadata id cb => exact RegisterRecvInitialMetadata_invariant h he
    | registerRecvMessage id cb => exact RegisterRecvMessage_invariant h he
    | registerRecvTrailingMetadata id cb => exact RegisterRecvTrailingMetadata_invariant h he
    | notifyRecvInitialMetadata id r =>
        simp only [step, Option.some.injEq] at he
        have ht : t = (NotifyRecvInitialMetadata s id r).1 := by rw [he]
        rw [ht]
        exact NotifyRecvInitialMetadata_invariant h
    | notifyRecvMessage id r =>
        simp only [step, Option.some.injEq] at he
        have ht : t = (NotifyRecvMessage s id r).1 := by rw [he]
        rw [ht]
        exact NotifyRecvMessage_invariant h
    | notifyRecvTrailingMetadata id r status =>
        simp only [step, Option.some.injEq] at he
        have ht : t = (NotifyRecvTrailingMetadata s id r status).1 := by rw [he]
        rw [ht]
        exact NotifyRecvTrailingMetadata_invariant h
    | cancelStream id error =>
        simp only [step, Option.some.injEq] at he
        have ht : t = (CancelStream s id error).1 := by rw [he]
        rw [ht]
        exact CancelStream_invariant h
    | clear id =>
        simp only [step, Option.some.injEq] at he
        have ht : t = (Clear s id).1 := by rw [he]
        rw [ht]
        exact Clear_invariant h

/-- C2 witness: the preservation theorem applied at a concrete input — a
`NotifyRecvMessage` on stream 4 of a fresh client receiver. -/
theorem C2_pending_callback_exclusion_witness :
    ReceiverInvariant (NotifyRecvMessage (initReceiver true false) 4 (StatusOr.ok "m")).1 :=
  C2_pending_callback_exclusion.2 (Op.notifyRecvMessage 4 (StatusOr.ok "m"))
    (initReceiver true false)
    (NotifyRecvMessage (initReceiver true false) 4 (StatusOr.ok "m")).1
    (NotifyRecvMessage (initReceiver true false) 4 (StatusOr.ok "m")).2
    ⟨fun _ => Or.inl rfl, fun _ => Or.inl rfl, fun _ => Or.inl rfl⟩ rfl

@[simp] theorem mapSet_same {α : Type} (f : StreamIdentifier → α) (k : StreamIdentifier)
    (v : α) : mapSet f k v k = v := by
  simp [mapSet]

theorem mapSet_ne {α : Type} (f : StreamIdentifier → α) (k : StreamIdentifier) (v : α)
    {x : StreamIdentifier} (h : x ≠ k) : mapSet f k v x = f x := by
  simp [mapSet, h]

theorem CancelRecvMessage_message_state (s : TransportStreamReceiverImpl)
    (id : StreamIdentifier) :
    (CancelRecvMessageCallbacksDueToTrailingMetadata s id).1.message_cbs_ id = none ∧
    (CancelRecvMessageCallbacksDueToTrailingMetadata s id).1.recv_message_cancelled_ id = true ∧
    (CancelRecvMessageCallbacksDueToTrailingMetadata s id).1.pending_message_ =
      s.pending_message_ := by
  unfold CancelRecvMessageCallbacksDueToTrailingMetadata
  split
  next cb hm => exact ⟨by simp [mapSet], by simp [mapSet], rfl⟩
  next hm => exact ⟨hm, by simp [mapSet], rfl⟩

theorem NotifyRecvTrailingMetadata_message_state (s : TransportStreamReceiverImpl)
    (id : StreamIdentifier) (tm : StatusOr Metadata) (status : Int) :
    (NotifyRecvTrailingMetadata s id tm status).1.message_cbs_ =
      (CancelRecvMessageCallbacksDueToTrailingMetadata s id).1.message_cbs_ ∧
    (NotifyRecvTrailingMetadata s id tm status).1.recv_message_cancelled_ =
      (CancelRecvMessageCallbacksDueToTrailingMetadata s id).1.recv_message_cancelled_ ∧
    (NotifyRecvTrailingMetadata s id tm status).1.pending_message_ =
      (CancelRecvMessageCallbacksDueToTrailingMetadata s id).1.pending_message_ := by
  simp only [NotifyRecvTrailingMetadata]
  split <;> exact ⟨rfl, rfl, rfl⟩

/-- C3: once `NotifyRecvTrailingMetadata` has run for a stream and the
stream's pending message queue is empty, a `RegisterRecvMessage` for that
stream invokes the callback immediately — during the call, while the lock is
still held — with the graceful-cancellation error, and does not store the
callback (the state is returned unchanged). -/
theorem C3_register_after_trailing_cancelled (s : TransportStreamReceiverImpl)
    (id : StreamIdentifier) (tm : StatusOr Metadata) (status : Int) (cb : Nat)
    (hp : (NotifyRecvTrailingMetadata s id tm status).1.pending_message_ id = none) :
    RegisterRecvMessage (NotifyRecvTrailingMetadata s id tm status).1 id cb =
      some ((NotifyRecvTrailingMetadata s id tm status).1,
        [Event.recvMessage cb
          (StatusOr.err (cancelledError kGrpcBinderTransportCancelledGracefully)) true]) := by
  obtain ⟨hmc, hrc, hpm⟩ := CancelRecvMessage_message_state s id
  obtain ⟨f1, f2, f3⟩ := NotifyRecvTrailingMetadata_message_state s id tm status
  unfold RegisterRecvMessage
  rw [f1, hmc, hp, f2, hrc]
  simp

/-- C3 witness: on a fresh server receiver, trailing metadata for stream 1
followed by a message registration cancels the registration immediately. -/
theorem C3_register_after_trailing_cancelled_witness :
    RegisterRecvMessage
        (NotifyRecvTrailingMetadata (initReceiver false true) 1 (StatusOr.ok []) 0).1 1 8 =
      some ((NotifyRecvTrailingMetadata (initReceiver false true) 1 (StatusOr.ok []) 0).1,
        [Event.recvMessage 8
          (StatusOr.err (cancelledError kGrpcBinderTransportCancelledGracefully)) true]) :=
  C3_register_after_trailing_cancelled (initReceiver false true) 1 (StatusOr.ok []) 0 8 rfl

theorem NotifyRecvMessage_no_cb (s : TransportStreamReceiverImpl) (id : StreamIdentifier)
    (r : StatusOr String) (hcb : s.message_cbs_ id = none) :
    NotifyRecvMessage s id r =
      ({ s with pending_message_ :=
          mapSet s.pending_message_ id (some ((s.pending_message_ id).getD [] ++ [r])) },
       []) := by
  simp [NotifyRecvMessage, hcb, queuePush]

theorem RegisterRecvMessage_pop (s : TransportStreamReceiverImpl) (id : StreamIdentifier)
    (cb : Nat) (r : StatusOr String) (rest : List (StatusOr String))
    (hcb : s.message_cbs_ id = none) (hp : s.pending_message_ id = some (r :: rest)) :
    RegisterRecvMessage s id cb =
      some ({ s with pending_message_ :=
                mapSet s.pending_message_ id (if rest.isEmpty then none else some rest) },
            [Event.recvMessage cb r false]) := by
  simp [RegisterRecvMessage, hcb, hp]

/-- C4: a message buffered before trailing metadata is preserved.  If
`NotifyRecvMessage (S, m1)` runs with no registered message callback and an
empty pending queue, then `NotifyRecvTrailingMetadata (S, ...)`, a subsequent
`RegisterRecvMessage (S, cb)` invokes `cb` with `m1`, not with the
cancellation error; and the cross-channel cancellation never changes any
pending message queue. -/
theorem C4_buffered_before_cancel_preserved (s : TransportStreamReceiverImpl)
    (id : StreamIdentifier) (m1 : StatusOr String) (tm : StatusOr Metadata) (status : Int)
    (cb : Nat) (hcb : s.message_cbs_ id = none) (hp : s.pending_message_ id = none) :
    (RegisterRecvMessage
        (NotifyRecvTrailingMetadata (NotifyRecvMessage s id m1).1 id tm status).1 id cb).map
        Prod.snd = some [Event.recvMessage cb m1 false] ∧
    (∀ (u : TransportStreamReceiverImpl) (j : StreamIdentifier),
      (CancelRecvMessageCallbacksDueToTrailingMetadata u j).1.pending_message_ =
        u.pending_message_) := by
  constructor
  · obtain ⟨hmc, hrc, hpm⟩ := CancelRecvMessage_message_state (NotifyRecvMessage s id m1).1 id
    obtain ⟨f1, f2, f3⟩ :=
      NotifyRecvTrailingMetadata_message_state (NotifyRecvMessage s id m1).1 id tm status
    have hs1 : (NotifyRecvMessage s id m1).1.pending_message_ id = some [m1] := by
      rw [NotifyRecvMessage_no_cb s id m1 hcb]
      simp [hp]
    have hT2c :
        (NotifyRecvTrailingMetadata (NotifyRecvMessage s id m1).1 id tm status).1.message_cbs_
          id = none := by
      rw [f1]; exact hmc
    have hT2p :
        (NotifyRecvTrailingMetadata
          (NotifyRecvMessage s id m1).1 id tm status).1.pending_message_ id = some [m1] := by
      rw [f3, hpm]; exact hs1
    rw [RegisterRecvMessage_pop _ id cb m1 [] hT2c hT2p]
    rfl
  · intro u j
    unfold CancelRecvMessageCallbacksDueToTrailingMetadata
    split <;> rfl

/-- C4 witness: stream 7 of a fresh server receiver — message "a", then
trailing metadata, then a registration that still receives "a". -/
theorem C4_buffered_before_cancel_preserved_witness :
    (RegisterRecvMessage
        (NotifyRecvTrailingMetadata
          (NotifyRecvMessage (initReceiver false true) 7 (StatusOr.ok "a")).1
          7 (StatusOr.ok []) 0).1 7 5).map Prod.snd =
      some [Event.recvMessage 5 (StatusOr.ok "a") false] :=
  (C4_buffered_before_cancel_preserved (initReceiver false true) 7 (StatusOr.ok "a")
    (StatusOr.ok []) 0 5 rfl rfl).1

/-- A sequence of `NotifyRecvMessage` calls for one stream, final state only. -/
def notifyMessageSeq (s : TransportStreamReceiverImpl) (id : StreamIdentifier) :
    List (StatusOr String) → TransportStreamReceiverImpl
  | [] => s
  | r :: rs => notifyMessageSeq (NotifyRecvMessage s id r).1 id rs

/-- A sequence of `RegisterRecvMessage` calls for one stream: the final state
and the concatenated events, `none` if any `GPR_ASSERT` fires. -/
def registerMessageSeq (s : TransportStreamReceiverImpl) (id : StreamIdentifier) :
    List Nat → Option (TransportStreamReceiverImpl × List Event)
  | [] => some (s, [])
  | cb :: cbs =>
      match RegisterRecvMessage s id cb with
      | none => none
      | some (t, evs) =>
          match registerMessageSeq t id cbs with
          | none => none
          | some (u, evs2) => some (u, evs ++ evs2)

theorem notifyMessageSeq_cbs (id : StreamIdentifier) :
    ∀ (rs : List (StatusOr String)) (s : TransportStreamReceiverImpl),
      s.message_cbs_ id = none → (notifyMessageSeq s id rs).message_cbs_ id = none := by
  intro rs
  induction rs with
  | nil => intro s hcb; exact hcb
  | cons r rs ih =>
      intro s hcb
      simp only [notifyMessageSeq]
      apply ih
      rw [NotifyRecvMessage_no_cb s id r hcb]
      exact hcb

theorem notifyMessageSeq_pending_some (id : StreamIdentifier) :
    ∀ (rs : List (StatusOr String)) (s : TransportStreamReceiverImpl)
      (q : List (StatusOr String)), s.message_cbs_ id = none →
      s.pending_message_ id = some q →
      (notifyMessageSeq s id rs).pending_message_ id = some (q ++ rs) := by
  intro rs
  induction rs with
  | nil => intro s q _ hp; simpa using hp
  | cons r rs ih =>
      intro s q hcb hp
      simp only [notifyMessageSeq]
      have h1 : (NotifyRecvMessage s id r).1.message_cbs_ id = none := by
        rw [NotifyRecvMessage_no_cb s id r hcb]; exact hcb
      have h2 : (NotifyRecvMessage s id r).1.pending_message_ id = some (q ++ [r]) := by
        rw [NotifyRecvMessage_no_cb s id r hcb]
        simp [hp]
      rw [ih _ _ h1 h2]
      simp

theorem notifyMessageSeq_from_empty (id : StreamIdentifier)
    (rs : List (StatusOr String)) (s : TransportStreamReceiverImpl)
    (hcb : s.message_cbs_ id = none) (hp : s.pending_message_ id = none) :
    (notifyMessageSeq s id rs).pending_message_ id =
      (if rs.isEmpty then none else some rs) := by
  cases rs with
  | nil => simpa [notifyMessageSeq] using hp
  | cons r rs =>
      simp only [notifyMessageSeq, List.isEmpty]
      have h1 : (NotifyRecvMessage s id r).1.message_cbs_ id = none := by
        rw [NotifyRecvMessage_no_cb s id r hcb]; exact hcb
      have h2 : (NotifyRecvMessage s id r).1.pending_message_ id = some [r] := by
        rw [NotifyRecvMessage_no_cb s id r hcb]
        simp [hp]
      rw [notifyMessageSeq_pending_some id rs _ [r] h1 h2]
      simp

theorem registerMessageSeq_drain (id : StreamIdentifier) :
    ∀ (cbs : List Nat) (rs : List (StatusOr String)) (s : TransportStreamReceiverImpl),
      s.message_cbs_ id = none →
      s.pending_message_ id = (if rs.isEmpty then none else some rs) →
      cbs.length = rs.length →
      (registerMessageSeq s id cbs).map
          (fun p => (p.1.pending_message_ id, p.1.message_cbs_ id, p.2)) =
        some (none, none,
          List.zipWith (fun cb r => Event.recvMessage cb r false) cbs rs) := by
  intro cbs
  induction cbs with
  | nil =>
      intro rs s hcb hp hlen
      cases rs with
      | nil => simp only [registerMessageSeq, Option.map_some']
               simp only [List.isEmpty] at hp
               simp [hp, hcb]
      | cons r rs => exact absurd hlen (by simp)
  | cons cb cbs ih =>
      intro rs s hcb hp hlen
      cases rs with
      | nil => exact absurd hlen (by simp)
      | cons r rs =>
          simp only [List.isEmpty] at hp
          simp only [registerMessageSeq]
          rw [RegisterRecvMessage_pop s id cb r rs hcb hp]
          have hcb2 : ({ s with pending_message_ := mapSet s.pending_message_ id (if rs.isEmpty then none else some rs) } : TransportStreamReceiverImpl).message_cbs_ id = none := hcb
          have hp2 : ({ s with pending_message_ := mapSet s.pending_message_ id (if rs.isEmpty then none else some rs) } : TransportStreamReceiverImpl).pending_message_ id = (if rs.isEmpty then none else some rs) := by
            simp
          have hrec := ih rs _ hcb2 hp2 (by simpa using hlen)
          cases hr : registerMessageSeq { s with pending_message_ := mapSet s.pending_message_ id (if rs.isEmpty then none else some rs) } id cbs with
          | none => rw [hr] at hrec; simp at hrec
          | some p =>
              rw [hr] at hrec
              simp only [Option.map_some', Option.some.injEq, Prod.mk.injEq] at hrec
              obtain ⟨hq, hc, hevs⟩ := hrec
              simp only [List.isEmpty_eq_true] at hr
              simp [hr, hq, hc, hevs]

/-- C5: message FIFO.  With no registered callback and an empty queue for the
stream, notifying `n1, n2, n3` in order and then registering `cb1, cb2, cb3`
invokes `cb1` with `n1`, `cb2` with `n2` and `cb3` with `n3`, in that order —
nothing is dropped or reordered. -/
theorem C5_message_fifo (s : TransportStreamReceiverImpl) (id : StreamIdentifier)
    (n1 n2 n3 : StatusOr String) (cb1 cb2 cb3 : Nat)
    (hcb : s.message_cbs_ id = none) (hp : s.pending_message_ id = none) :
    (registerMessageSeq (notifyMessageSeq s id [n1, n2, n3]) id [cb1, cb2, cb3]).map
        Prod.snd =
      some [Event.recvMessage cb1 n1 false, Event.recvMessage cb2 n2 false,
        Event.recvMessage cb3 n3 false] := by
  have hn1 := notifyMessageSeq_cbs id [n1, n2, n3] s hcb
  have hn2 := notifyMessageSeq_from_empty id [n1, n2, n3] s hcb hp
  have hd := registerMessageSeq_drain id [cb1, cb2, cb3] [n1, n2, n3]
    (notifyMessageSeq s id [n1, n2, n3]) hn1 hn2 rfl
  cases hr : registerMessageSeq (notifyMessageSeq s id [n1, n2, n3]) id [cb1, cb2, cb3] with
  | none => rw [hr] at hd; simp at hd
  | some p =>
      rw [hr] at hd
      simp only [Option.map_some', Option.some.injEq, Prod.mk.injEq] at hd
      simp [hd.2.2]

/-- C5 witness: the scenario of the spec on stream 7 with "a", "b", "c". -/
theorem C5_message_fifo_witness :
    (registerMessageSeq
        (notifyMessageSeq (initReceiver false true) 7
          [StatusOr.ok "a", StatusOr.ok "b", StatusOr.ok "c"]) 7 [1, 2, 3]).map Prod.snd =
      some [Event.recvMessage 1 (StatusOr.ok "a") false,
        Event.recvMessage 2 (StatusOr.ok "b") false,
        Event.recvMessage 3 (StatusOr.ok "c") false] :=
  C5_message_fifo (initReceiver false true) 7 (StatusOr.ok "a") (StatusOr.ok "b")
    (StatusOr.ok "c") 1 2 3 rfl rfl

/-- C6: `CancelStream (S, err)` removes the currently registered callbacks of
all three channels for `S` and invokes each exactly once with `err` (the
trailing-metadata callback with status `0`), in channel order, and changes
nothing else: the three pending queues and the cancelled-marker set are
exactly as before, and callback slots of other streams are untouched. -/
theorem C6_cancel_stream_frame (s : TransportStreamReceiverImpl) (id : StreamIdentifier)
    (error : AbslStatus) :
    (CancelStream s id error).1.pending_initial_metadata_ = s.pending_initial_metadata_ ∧
    (CancelStream s id error).1.pending_message_ = s.pending_message_ ∧
    (CancelStream s id error).1.pending_trailing_metadata_ = s.pending_trailing_metadata_ ∧
    (CancelStream s id error).1.recv_message_cancelled_ = s.recv_message_cancelled_ ∧
    (CancelStream s id error).1.initial_metadata_cbs_ =
      (fun j => if j = id then none else s.initial_metadata_cbs_ j) ∧
    (CancelStream s id error).1.message_cbs_ =
      (fun j => if j = id then none else s.message_cbs_ j) ∧
    (CancelStream s id error).1.trailing_metadata_cbs_ =
      (fun j => if j = id then none else s.trailing_metadata_cbs_ j) ∧
    (CancelStream s id error).2 =
      ((s.initial_metadata_cbs_ id).toList.map
          (fun cb => Event.recvInitialMetadata cb (StatusOr.err error) false) ++
        (s.message_cbs_ id).toList.map
          (fun cb => Event.recvMessage cb (StatusOr.err error) false) ++
        (s.trailing_metadata_cbs_ id).toList.map
          (fun cb => Event.recvTrailingMetadata cb (StatusOr.err error) 0 false)) := by
  refine ⟨rfl, rfl, rfl, rfl, rfl, rfl, rfl, ?_⟩
  simp only [CancelStream]
  cases hi : s.initial_metadata_cbs_ id <;> cases hm : s.message_cbs_ id <;>
    cases ht : s.trailing_metadata_cbs_ id <;> simp [hi, hm, ht, Option.toList]

/-- C7: `Clear (S)` erases every per-stream entry for `S` (all three callback
slots, all three pending queues, the cancelled marker) without producing any
event, leaves every other stream's state intact, and a subsequent
`RegisterRecvMessage (S, cb)` behaves exactly as on a never-seen stream: it
stores `cb` and invokes nothing. -/
theorem C7_clear_erases_all (s : TransportStreamReceiverImpl) (id : StreamIdentifier)
    (cb : Nat) :
    (Clear s id).2 = [] ∧
    (Clear s id).1.initial_metadata_cbs_ =
      (fun j => if j = id then none else s.initial_metadata_cbs_ j) ∧
    (Clear s id).1.message_cbs_ = (fun j => if j = id then none else s.message_cbs_ j) ∧
    (Clear s id).1.trailing_metadata_cbs_ =
      (fun j => if j = id then none else s.trailing_metadata_cbs_ j) ∧
    (Clear s id).1.recv_message_cancelled_ =
      (fun j => if j = id then false else s.recv_message_cancelled_ j) ∧
    (Clear s id).1.pending_initial_metadata_ =
      (fun j => if j = id then none else s.pending_initial_metadata_ j) ∧
    (Clear s id).1.pending_message_ = (fun j => if j = id then none else s.pending_message_ j) ∧
    (Clear s id).1.pending_trailing_metadata_ =
      (fun j => if j = id then none else s.pending_trailing_metadata_ j) ∧
    RegisterRecvMessage (Clear s id).1 id cb =
      some ({ (Clear s id).1 with
                message_cbs_ := mapSet (Clear s id).1.message_cbs_ id (some cb) }, []) := by
  refine ⟨rfl, rfl, rfl, rfl, rfl, rfl, rfl, rfl, ?_⟩
  have h1 : (Clear s id).1.message_cbs_ id = none := by simp [Clear]
  have h2 : (Clear s id).1.pending_message_ id = none := by simp [Clear]
  have h3 : (Clear s id).1.recv_message_cancelled_ id = false := by simp [Clear]
  simp [RegisterRecvMessage, h1, h2, h3]

/-- Run a list of public calls in order, accumulating the events; `none` as
soon as a `GPR_ASSERT` fires. -/
def runOps : TransportStreamReceiverImpl → List Op →
    Option (TransportStreamReceiverImpl × List Event)
  | s, [] => some (s, [])
  | s, o :: os =>
      match step s o with
      | none => none
      | some (t, evs) =>
          match runOps t os with
          | none => none
          | some (u, evs2) => some (u, evs ++ evs2)

/-- The stream has no per-stream state in the receiver: no callback
registered, no pending result, no cancelled marker — the state of a stream
never seen (or just cleared). -/
def StreamUntouched (s : TransportStreamReceiverImpl) (id : StreamIdentifier) : Prop :=
  s.initial_metadata_cbs_ id = none ∧ s.message_cbs_ id = none ∧
  s.trailing_metadata_cbs_ id = none ∧ s.recv_message_cancelled_ id = false ∧
  s.pending_initial_metadata_ id = none ∧ s.pending_message_ id = none ∧
  s.pending_trailing_metadata_ id = none

theorem mapSet_mapSet_cancel {α : Type} {f : StreamIdentifier → α} {k : StreamIdentifier}
    {e : α} (hf : f k = e) (v : α) : mapSet (mapSet f k v) k e = f := by
  funext x
  by_cases hx : x = k
  · subst hx; simp [mapSet, hf]
  · simp [mapSet, hx]

theorem RegisterRecvInitialMetadata_store (s : TransportStreamReceiverImpl)
    (id : StreamIdentifier) (cb : Nat) (hcb : s.initial_metadata_cbs_ id = none)
    (hp : s.pending_initial_metadata_ id = none) :
    RegisterRecvInitialMetadata s id cb =
      some ({ s with initial_metadata_cbs_ := mapSet s.initial_metadata_cbs_ id (some cb) },
        []) := by
  simp [RegisterRecvInitialMetadata, hcb, hp]

theorem RegisterRecvMessage_store (s : TransportStreamReceiverImpl) (id : StreamIdentifier)
    (cb : Nat) (hcb : s.message_cbs_ id = none) (hp : s.pending_message_ id = none)
    (hc : s.recv_message_cancelled_ id = false) :
    RegisterRecvMessage s id cb =
      some ({ s with message_cbs_ := mapSet s.message_cbs_ id (some cb) }, []) := by
  simp [RegisterRecvMessage, hcb, hp, hc]

theorem RegisterRecvTrailingMetadata_store (s : TransportStreamReceiverImpl)
    (id : StreamIdentifier) (cb : Nat) (hcb : s.trailing_metadata_cbs_ id = none)
    (hp : s.pending_trailing_metadata_ id = none) :
    RegisterRecvTrailingMetadata s id cb =
      some ({ s with trailing_metadata_cbs_ := mapSet s.trailing_metadata_cbs_ id (some cb) },
        []) := by
  simp [RegisterRecvTrailingMetadata, hcb, hp]

theorem NotifyRecvInitialMetadata_match (s : TransportStreamReceiverImpl)
    (id : StreamIdentifier) (r : StatusOr Metadata) (cb : Nat)
    (hcb : s.initial_metadata_cbs_ id = some cb) :
    NotifyRecvInitialMetadata s id r =
      ({ s with initial_metadata_cbs_ := mapSet s.initial_metadata_cbs_ id none },
       acceptEvents s ++ [Event.recvInitialMetadata cb r false]) := by
  simp [NotifyRecvInitialMetadata, hcb]

theorem NotifyRecvInitialMetadata_no_cb (s : TransportStreamReceiverImpl)
    (id : StreamIdentifier) (r : StatusOr Metadata)
    (hcb : s.initial_metadata_cbs_ id = none) :
    NotifyRecvInitialMetadata s id r =
      ({ s with pending_initial_metadata_ := mapSet s.pending_initial_metadata_ id (some ((s.pending_initial_metadata_ id).getD [] ++ [r])) },
       acceptEvents s) := by
  simp [NotifyRecvInitialMetadata, hcb, queuePush]

theorem NotifyRecvMessage_match (s : TransportStreamReceiverImpl) (id : StreamIdentifier)
    (r : StatusOr String) (cb : Nat) (hcb : s.message_cbs_ id = some cb) :
    NotifyRecvMessage s id r =
      ({ s with message_cbs_ := mapSet s.message_cbs_ id none },
       [Event.recvMessage cb r false]) := by
  simp [NotifyRecvMessage, hcb]

theorem NotifyRecvTrailingMetadata_no_msgcb_match (s : TransportStreamReceiverImpl)
    (id : StreamIdentifier) (r : StatusOr Metadata) (st : Int) (cb : Nat)
    (hm : s.message_cbs_ id = none) (ht : s.trailing_metadata_cbs_ id = some cb) :
    NotifyRecvTrailingMetadata s id r st =
      ({ s with trailing_metadata_cbs_ := mapSet s.trailing_metadata_cbs_ id none, recv_message_cancelled_ := mapSet s.recv_message_cancelled_ id true },
       [Event.recvTrailingMetadata cb r st false]) := by
  simp [NotifyRecvTrailingMetadata, CancelRecvMessageCallbacksDueToTrailingMetadata, hm, ht]

theorem NotifyRecvTrailingMetadata_no_cb (s : TransportStreamReceiverImpl)
    (id : StreamIdentifier) (r : StatusOr Metadata) (st : Int)
    (hm : s.message_cbs_ id = none) (ht : s.trailing_metadata_cbs_ id = none) :
    NotifyRecvTrailingMetadata s id r st =
      ({ s with recv_message_cancelled_ := mapSet s.recv_message_cancelled_ id true, pending_trailing_metadata_ := mapSet s.pending_trailing_metadata_ id (some ((s.pending_trailing_metadata_ id).getD [] ++ [(r, st)])) },
       []) := by
  simp [NotifyRecvTrailingMetadata, CancelRecvMessageCallbacksDueToTrailingMetadata,
    queuePush, hm, ht]

theorem RegisterRecvInitialMetadata_pop (s : TransportStreamReceiverImpl)
    (id : StreamIdentifier) (cb : Nat) (r : StatusOr Metadata)
    (rest : List (StatusOr Metadata)) (hcb : s.initial_metadata_cbs_ id = none)
    (hp : s.pending_initial_metadata_ id = some (r :: rest)) :
    RegisterRecvInitialMetadata s id cb =
      some ({ s with pending_initial_metadata_ := mapSet s.pending_initial_metadata_ id (if rest.isEmpty then none else some rest) },
            [Event.recvInitialMetadata cb r false]) := by
  simp [RegisterRecvInitialMetadata, hcb, hp]

theorem RegisterRecvTrailingMetadata_pop (s : TransportStreamReceiverImpl)
    (id : StreamIdentifier) (cb : Nat) (r : StatusOr Metadata × Int)
    (rest : List (StatusOr Metadata × Int)) (hcb : s.trailing_metadata_cbs_ id = none)
    (hp : s.pending_trailing_metadata_ id = some (r :: rest)) :
    RegisterRecvTrailingMetadata s id cb =
      some ({ s with pending_trailing_metadata_ := mapSet s.pending_trailing_metadata_ id (if rest.isEmpty then none else some rest) },
            [Event.recvTrailingMetadata cb r.1 r.2 false]) := by
  simp [RegisterRecvTrailingMetadata, hcb, hp]

/-- C8: order independence.  On a stream with no per-stream state, for each
of the three channels, register-then-notify and notify-then-register return
the same final receiver state, and the consumer callback is invoked with
exactly the same arguments in both orders (the accept-stream signal of the
initial-metadata channel fires in both orders, since both run one notify). -/
theorem C8_order_independence (s : TransportStreamReceiverImpl) (id : StreamIdentifier)
    (cb : Nat) (rim : StatusOr Metadata) (rmsg : StatusOr String) (rtm : StatusOr Metadata)
    (st : Int) (h : StreamUntouched s id) :
    (runOps s [Op.registerRecvInitialMetadata id cb, Op.notifyRecvInitialMetadata id rim] =
        runOps s [Op.notifyRecvInitialMetadata id rim,
          Op.registerRecvInitialMetadata id cb] ∧
      (runOps s [Op.registerRecvInitialMetadata id cb,
          Op.notifyRecvInitialMetadata id rim]).map Prod.snd =
        some (acceptEvents s ++ [Event.recvInitialMetadata cb rim false])) ∧
    (runOps s [Op.registerRecvMessage id cb, Op.notifyRecvMessage id rmsg] =
        runOps s [Op.notifyRecvMessage id rmsg, Op.registerRecvMessage id cb] ∧
      (runOps s [Op.registerRecvMessage id cb, Op.notifyRecvMessage id rmsg]).map
          Prod.snd =
        some [Event.recvMessage cb rmsg false]) ∧
    (runOps s [Op.registerRecvTrailingMetadata id cb,
        Op.notifyRecvTrailingMetadata id rtm st] =
        runOps s [Op.notifyRecvTrailingMetadata id rtm st,
          Op.registerRecvTrailingMetadata id cb] ∧
      (runOps s [Op.registerRecvTrailingMetadata id cb,
          Op.notifyRecvTrailingMetadata id rtm st]).map Prod.snd =
        some [Event.recvTrailingMetadata cb rtm st false]) := by
  obtain ⟨h1, h2, h3, h4, h5, h6, h7⟩ := h
  -- initial-metadata channel
  have hreg1 := RegisterRecvInitialMetadata_store s id cb h1 h5
  have hnot1 : NotifyRecvInitialMetadata { s with initial_metadata_cbs_ := mapSet s.initial_metadata_cbs_ id (some cb) } id rim = (s, acceptEvents s ++ [Event.recvInitialMetadata cb rim false]) := by
    rw [NotifyRecvInitialMetadata_match { s with initial_metadata_cbs_ := mapSet s.initial_metadata_cbs_ id (some cb) } id rim cb (by simp)]
    simp [mapSet_mapSet_cancel h1, acceptEvents]
  have hnot2 : NotifyRecvInitialMetadata s id rim = ({ s with pending_initial_metadata_ := mapSet s.pending_initial_metadata_ id (some [rim]) }, acceptEvents s) := by
    rw [NotifyRecvInitialMetadata_no_cb s id rim h1]
    simp [h5]
  have hreg2 : RegisterRecvInitialMetadata { s with pending_initial_metadata_ := mapSet s.pending_initial_metadata_ id (some [rim]) } id cb = some (s, [Event.recvInitialMetadata cb rim false]) := by
    rw [RegisterRecvInitialMetadata_pop { s with pending_initial_metadata_ := mapSet s.pending_initial_metadata_ id (some [rim]) } id cb rim [] h1 (by simp)]
    simp [mapSet_mapSet_cancel h5]
  have hLim : runOps s [Op.registerRecvInitialMetadata id cb,
      Op.notifyRecvInitialMetadata id rim] =
      some (s, acceptEvents s ++ [Event.recvInitialMetadata cb rim false]) := by
    simp [runOps, step, hreg1, hnot1]
  have hRim : runOps s [Op.notifyRecvInitialMetadata id rim,
      Op.registerRecvInitialMetadata id cb] =
      some (s, acceptEvents s ++ [Event.recvInitialMetadata cb rim false]) := by
    simp [runOps, step, hnot2, hreg2]
  -- message channel
  have hreg3 := RegisterRecvMessage_store s id cb h2 h6 h4
  have hnot3 : NotifyRecvMessage { s with message_cbs_ := mapSet s.message_cbs_ id (some cb) } id rmsg = (s, [Event.recvMessage cb rmsg false]) := by
    rw [NotifyRecvMessage_match { s with message_cbs_ := mapSet s.message_cbs_ id (some cb) } id rmsg cb (by simp)]
    simp [mapSet_mapSet_cancel h2]
  have hnot4 : NotifyRecvMessage s id rmsg = ({ s with pending_message_ := mapSet s.pending_message_ id (some [rmsg]) }, []) := by
    rw [NotifyRecvMessage_no_cb s id rmsg h2]
    simp [h6]
  have hreg4 : RegisterRecvMessage { s with pending_message_ := mapSet s.pending_message_ id (some [rmsg]) } id cb = some (s, [Event.recvMessage cb rmsg false]) := by
    rw [RegisterRecvMessage_pop { s with pending_message_ := mapSet s.pending_message_ id (some [rmsg]) } id cb rmsg [] h2 (by simp)]
    simp [mapSet_mapSet_cancel h6]
  have hLmsg : runOps s [Op.registerRecvMessage id cb, Op.notifyRecvMessage id rmsg] =
      some (s, [Event.recvMessage cb rmsg false]) := by
    simp [runOps, step, hreg3, hnot3]
  have hRmsg : runOps s [Op.notifyRecvMessage id rmsg, Op.registerRecvMessage id cb] =
      some (s, [Event.recvMessage cb rmsg false]) := by
    simp [runOps, step, hnot4, hreg4]
  -- trailing-metadata channel
  have hreg5 := RegisterRecvTrailingMetadata_store s id cb h3 h7
  have hnot5 : NotifyRecvTrailingMetadata { s with trailing_metadata_cbs_ := mapSet s.trailing_metadata_cbs_ id (some cb) } id rtm st = ({ s with recv_message_cancelled_ := mapSet s.recv_message_cancelled_ id true }, [Event.recvTrailingMetadata cb rtm st false]) := by
    rw [NotifyRecvTrailingMetadata_no_msgcb_match { s with trailing_metadata_cbs_ := mapSet s.trailing_metadata_cbs_ id (some cb) } id rtm st cb h2 (by simp)]
    simp [mapSet_mapSet_cancel h3]
  have hnot6 : NotifyRecvTrailingMetadata s id rtm st = ({ s with recv_message_cancelled_ := mapSet s.recv_message_cancelled_ id true, pending_trailing_metadata_ := mapSet s.pending_trailing_metadata_ id (some [(rtm, st)]) }, []) := by
    rw [NotifyRecvTrailingMetadata_no_cb s id rtm st h2 h3]
    simp [h7]
  have hreg6 : RegisterRecvTrailingMetadata { s with recv_message_cancelled_ := mapSet s.recv_message_cancelled_ id true, pending_trailing_metadata_ := mapSet s.pending_trailing_metadata_ id (some [(rtm, st)]) } id cb = some ({ s with recv_message_cancelled_ := mapSet s.recv_message_cancelled_ id true }, [Event.recvTrailingMetadata cb rtm st false]) := by
    rw [RegisterRecvTrailingMetadata_pop { s with recv_message_cancelled_ := mapSet s.recv_message_cancelled_ id true, pending_trailing_metadata_ := mapSet s.pending_trailing_metadata_ id (some [(rtm, st)]) } id cb (rtm, st) [] h3 (by simp)]
    simp [mapSet_mapSet_cancel h7]
  have hLtm : runOps s [Op.registerRecvTrailingMetadata id cb,
      Op.notifyRecvTrailingMetadata id rtm st] =
      some ({ s with recv_message_cancelled_ := mapSet s.recv_message_cancelled_ id true },
        [Event.recvTrailingMetadata cb rtm st false]) := by
    simp [runOps, step, hreg5, hnot5]
  have hRtm : runOps s [Op.notifyRecvTrailingMetadata id rtm st,
      Op.registerRecvTrailingMetadata id cb] =
      some ({ s with recv_message_cancelled_ := mapSet s.recv_message_cancelled_ id true },
        [Event.recvTrailingMetadata cb rtm st false]) := by
    simp [runOps, step, hnot6, hreg6]
  refine ⟨⟨hLim.trans hRim.symm, ?_⟩, ⟨hLmsg.trans hRmsg.symm, ?_⟩,
    ⟨hLtm.trans hRtm.symm, ?_⟩⟩
  · rw [hLim]; rfl
  · rw [hLmsg]; rfl
  · rw [hLtm]; rfl

/-- C8 witness: the order-independence theorem applied on stream 0 of a fresh
client receiver, for all three channels at concrete values. -/
theorem C8_order_independence_witness :
    runOps (initReceiver true false) [Op.registerRecvInitialMetadata 0 9,
        Op.notifyRecvInitialMetadata 0 (StatusOr.ok [])] =
      runOps (initReceiver true false) [Op.notifyRecvInitialMetadata 0 (StatusOr.ok []),
        Op.registerRecvInitialMetadata 0 9] :=
  (C8_order_independence (initReceiver true false) 0 9 (StatusOr.ok []) (StatusOr.ok "m")
    (StatusOr.ok []) 0 ⟨rfl, rfl, rfl, rfl, rfl, rfl, rfl⟩).1.1

/-- Whether an event is a callback invocation performed while the mutex is
held (the accept-stream signal runs before the lock is taken). -/
def eventUnderLock : Event → Bool
  | Event.acceptStream => false
  | Event.recvInitialMetadata _ _ u => u
  | Event.recvMessage _ _ u => u
  | Event.recvTrailingMetadata _ _ _ u => u

/-- Recognizer for the one under-lock invocation of the source: the
graceful-cancellation callback inside `RegisterRecvMessage`. -/
def isRegisterRecvMessageCancellation : Op → Event → Bool
  | Op.registerRecvMessage _ cb, Event.recvMessage cb2 arg under_lock =>
      decide (cb2 = cb) &&
        decide (arg =
          StatusOr.err (cancelledError kGrpcBinderTransportCancelledGracefully)) &&
        under_lock
  | _, _ => false

/-- A receiver whose stream 3 has seen trailing metadata (cancelled marker
set) and has no other per-stream state. -/
def cancelledState : TransportStreamReceiverImpl :=
  { initReceiver false true with
      recv_message_cancelled_ :=
        mapSet (initReceiver false true).recv_message_cancelled_ 3 true }

theorem acceptEvents_unlocked (s : TransportStreamReceiverImpl) :
    ∀ e ∈ acceptEvents s, eventUnderLock e = false := by
  intro e hm
  unfold acceptEvents at hm
  split at hm
  · rw [List.mem_singleton] at hm; subst hm; rfl
  · exact absurd hm (List.not_mem_nil e)

theorem RegisterRecvInitialMetadata_events_unlocked {s t : TransportStreamReceiverImpl}
    {evs : List Event} {id : StreamIdentifier} {cb : Nat}
    (he : RegisterRecvInitialMetadata s id cb = some (t, evs)) :
    ∀ e ∈ evs, eventUnderLock e = false := by
  unfold RegisterRecvInitialMetadata at he
  split at he
  · exact absurd he (by simp)
  next =>
    split at he
    · simp only [Option.some.injEq, Prod.mk.injEq] at he
      obtain ⟨rfl, rfl⟩ := he.1, he.2
      intro e hm; exact absurd hm (List.not_mem_nil e)
    · exact absurd he (by simp)
    · simp only [Option.some.injEq, Prod.mk.injEq] at he
      obtain ⟨rfl, rfl⟩ := he.1, he.2
      intro e hm; rw [List.mem_singleton] at hm; subst hm; rfl

theorem RegisterRecvTrailingMetadata_events_unlocked {s t : TransportStreamReceiverImpl}
    {evs : List Event} {id : StreamIdentifier} {cb : Nat}
    (he : RegisterRecvTrailingMetadata s id cb = some (t, evs)) :
    ∀ e ∈ evs, eventUnderLock e = false := by
  unfold RegisterRecvTrailingMetadata at he
  split at he
  · exact absurd he (by simp)
  next =>
    split at he
    · simp only [Option.some.injEq, Prod.mk.injEq] at he
      obtain ⟨rfl, rfl⟩ := he.1, he.2
      intro e hm; exact absurd hm (List.not_mem_nil e)
    · exact absurd he (by simp)
    · simp only [Option.some.injEq, Prod.mk.injEq] at he
      obtain ⟨rfl, rfl⟩ := he.1, he.2
      intro e hm; rw [List.mem_singleton] at hm; subst hm; rfl

theorem NotifyRecvInitialMetadata_events_unlocked (s : TransportStreamReceiverImpl)
    (id : StreamIdentifier) (r : StatusOr Metadata) :
    ∀ e ∈ (NotifyRecvInitialMetadata s id r).2, eventUnderLock e = false := by
  intro e hm
  unfold NotifyRecvInitialMetadata at hm
  split at hm
  · rcases List.mem_append.mp hm with hm | hm
    · exact acceptEvents_unlocked s e hm
    · rw [List.mem_singleton] at hm; subst hm; rfl
  · exact acceptEvents_unlocked s e hm

theorem NotifyRecvMessage_events_unlocked (s : TransportStreamReceiverImpl)
    (id : StreamIdentifier) (r : StatusOr String) :
    ∀ e ∈ (NotifyRecvMessage s id r).2, eventUnderLock e = false := by
  intro e hm
  unfold NotifyRecvMessage at hm
  split at hm
  · rw [List.mem_singleton] at hm; subst hm; rfl
  · exact absurd hm (List.not_mem_nil e)

theorem CancelRecvMessage_events_unlocked (s : TransportStreamReceiverImpl)
    (id : StreamIdentifier) :
    ∀ e ∈ (CancelRecvMessageCallbacksDueToTrailingMetadata s id).2,
      eventUnderLock e = false := by
  intro e hm
  unfold CancelRecvMessageCallbacksDueToTrailingMetadata at hm
  split at hm
  · rw [List.mem_singleton] at hm; subst hm; rfl
  · exact absurd hm (List.not_mem_nil e)

theorem NotifyRecvTrailingMetadata_events_unlocked (s : TransportStreamReceiverImpl)
    (id : StreamIdentifier) (r : StatusOr Metadata) (st : Int) :
    ∀ e ∈ (NotifyRecvTrailingMetadata s id r st).2, eventUnderLock e = false := by
  intro e hm
  simp only [NotifyRecvTrailingMetadata] at hm
  split at hm
  · rcases List.mem_append.mp hm with hm | hm
    · exact CancelRecvMessage_events_unlocked s id e hm
    · rw [List.mem_singleton] at hm; subst hm; rfl
  · exact CancelRecvMessage_events_unlocked s id e hm

theorem CancelStream_events_unlocked (s : TransportStreamReceiverImpl)
    (id : StreamIdentifier) (error : AbslStatus) :
    ∀ e ∈ (CancelStream s id error).2, eventUnderLock e = false := by
  intro e hm
  simp only [CancelStream] at hm
  rcases List.mem_append.mp hm with hm | hm
  · rcases List.mem_append.mp hm with hm | hm
    · split at hm
      · rw [List.mem_singleton] at hm; subst hm; rfl
      · exact absurd hm (List.not_mem_nil e)
    · split at hm
      · rw [List.mem_singleton] at hm; subst hm; rfl
      · exact absurd hm (List.not_mem_nil e)
  · split at hm
    · rw [List.mem_singleton] at hm; subst hm; rfl
    · exact absurd hm (List.not_mem_nil e)

theorem RegisterRecvMessage_under_lock {s t : TransportStreamReceiverImpl}
    {evs : List Event} {id : StreamIdentifier} {cb : Nat} {e : Event}
    (he : RegisterRecvMessage s id cb = some (t, evs)) (hmem : e ∈ evs)
    (hl : eventUnderLock e = true) :
    isRegisterRecvMessageCancellation (Op.registerRecvMessage id cb) e = true := by
  unfold RegisterRecvMessage at he
  split at he
  · exact absurd he (by simp)
  next =>
    split at he
    · split at he
      · simp only [Option.some.injEq, Prod.mk.injEq] at he
        obtain ⟨rfl, rfl⟩ := he.1, he.2
        rw [List.mem_singleton] at hmem; subst hmem
        simp [isRegisterRecvMessageCancellation]
      · simp only [Option.some.injEq, Prod.mk.injEq] at he
        obtain ⟨rfl, rfl⟩ := he.1, he.2
        exact absurd hmem (List.not_mem_nil e)
    · exact absurd he (by simp)
    · simp only [Option.some.injEq, Prod.mk.injEq] at he
      obtain ⟨rfl, rfl⟩ := he.1, he.2
      rw [List.mem_singleton] at hmem; subst hmem
      simp [eventUnderLock] at hl

/-- C9 counterexample: with the cancelled marker set for stream 3 and no
buffered message, `RegisterRecvMessage` invokes the callback with the
graceful-cancellation error while the mutex is still held (the invocation is
inside the `grpc_core::MutexLock` scope in the source), contradicting the
claim that no callback body ever runs while the lock is held. -/
theorem C9_counterexample :
    RegisterRecvMessage cancelledState 3 9 =
      some (cancelledState,
        [Event.recvMessage 9
          (StatusOr.err (cancelledError kGrpcBinderTransportCancelledGracefully)) true]) ∧
    ((RegisterRecvMessage cancelledState 3 9).getD (cancelledState, [])).2.any
        eventUnderLock = true :=
  ⟨rfl, rfl⟩

/-- C9 (amended): in every public operation, every matched callback is
invoked only after the mutex is released, with exactly one exception:
`RegisterRecvMessage` invokes the graceful-cancellation callback while the
mutex is still held.  Formally, any event of any operation flagged as
under-lock is that cancellation invocation of `RegisterRecvMessage`. -/
theorem C9_callbacks_after_unlock_except_register_cancel (o : Op)
    (s t : TransportStreamReceiverImpl) (evs : List Event) (e : Event)
    (he : step s o = some (t, evs)) (hmem : e ∈ evs) (hl : eventUnderLock e = true) :
    isRegisterRecvMessageCancellation o e = true := by
  cases o with
  | registerRecvInitialMetadata id cb =>
      simp only [step] at he
      rw [RegisterRecvInitialMetadata_events_unlocked he e hmem] at hl
      exact absurd hl (by simp)
  | registerRecvMessage id cb =>
      simp only [step] at he
      exact RegisterRecvMessage_under_lock he hmem hl
  | registerRecvTrailingMetadata id cb =>
      simp only [step] at he
      rw [RegisterRecvTrailingMetadata_events_unlocked he e hmem] at hl
      exact absurd hl (by simp)
  | notifyRecvInitialMetadata id r =>
      simp only [step, Option.some.injEq] at he
      have hevs : evs = (NotifyRecvInitialMetadata s id r).2 := by rw [he]
      rw [hevs] at hmem
      rw [NotifyRecvInitialMetadata_events_unlocked s id r e hmem] at hl
      exact absurd hl (by simp)
  | notifyRecvMessage id r =>
      simp only [step, Option.some.injEq] at he
      have hevs : evs = (NotifyRecvMessage s id r).2 := by rw [he]
      rw [hevs] at hmem
      rw [NotifyRecvMessage_events_unlocked s id r e hmem] at hl
      exact absurd hl (by simp)
  | notifyRecvTrailingMetadata id r status =>
      simp only [step, Option.some.injEq] at he
      have hevs : evs = (NotifyRecvTrailingMetadata s id r status).2 := by rw [he]
      rw [hevs] at hmem
      rw [NotifyRecvTrailingMetadata_events_unlocked s id r status e hmem] at hl
      exact absurd hl (by simp)
  | cancelStream id error =>
      simp only [step, Option.some.injEq] at he
      have hevs : evs = (CancelStream s id error).2 := by rw [he]
      rw [hevs] at hmem
      rw [CancelStream_events_unlocked s id error e hmem] at hl
      exact absurd hl (by simp)
  | clear id =>
      simp only [step, Option.some.injEq] at he
      have hevs : evs = (Clear s id).2 := by rw [he]
      rw [hevs] at hmem
      exact absurd hmem (List.not_mem_nil e)

/-- C9 witness: the amended theorem applied at the concrete under-lock
cancellation of stream 3. -/
theorem C9_callbacks_after_unlock_witness :
    isRegisterRecvMessageCancellation (Op.registerRecvMessage 3 9)
      (Event.recvMessage 9
        (StatusOr.err (cancelledError kGrpcBinderTransportCancelledGracefully)) true) =
      true :=
  C9_callbacks_after_unlock_except_register_cancel (Op.registerRecvMessage 3 9)
    cancelledState cancelledState
    [Event.recvMessage 9
      (StatusOr.err (cancelledError kGrpcBinderTransportCancelledGracefully)) true]
    (Event.recvMessage 9
      (StatusOr.err (cancelledError kGrpcBinderTransportCancelledGracefully)) true)
    rfl (List.mem_singleton.mpr rfl) rfl

/-- A sequence of `NotifyRecvInitialMetadata` calls for one stream, final
state only. -/
def notifyInitialMetadataSeq (s : TransportStreamReceiverImpl) (id : StreamIdentifier) :
    List (StatusOr Metadata) → TransportStreamReceiverImpl
  | [] => s
  | r :: rs => notifyInitialMetadataSeq (NotifyRecvInitialMetadata s id r).1 id rs

/-- A sequence of `RegisterRecvInitialMetadata` calls for one stream: final
state and concatenated events, `none` if any `GPR_ASSERT` fires. -/
def registerInitialMetadataSeq (s : TransportStreamReceiverImpl) (id : StreamIdentifier) :
    List Nat → Option (TransportStreamReceiverImpl × List Event)
  | [] => some (s, [])
  | cb :: cbs =>
      match RegisterRecvInitialMetadata s id cb with
      | none => none
      | some (t, evs) =>
          match registerInitialMetadataSeq t id cbs with
          | none => none
          | some (u, evs2) => some (u, evs ++ evs2)

theorem notifyInitialMetadataSeq_cbs (id : StreamIdentifier) :
    ∀ (rs : List (StatusOr Metadata)) (s : TransportStreamReceiverImpl),
      s.initial_metadata_cbs_ id = none →
      (notifyInitialMetadataSeq s id rs).initial_metadata_cbs_ id = none := by
  intro rs
  induction rs with
  | nil => intro s hcb; exact hcb
  | cons r rs ih =>
      intro s hcb
      simp only [notifyInitialMetadataSeq]
      apply ih
      rw [NotifyRecvInitialMetadata_no_cb s id r hcb]
      exact hcb

theorem notifyInitialMetadataSeq_pending_some (id : StreamIdentifier) :
    ∀ (rs : List (StatusOr Metadata)) (s : TransportStreamReceiverImpl)
      (q : List (StatusOr Metadata)), s.initial_metadata_cbs_ id = none →
      s.pending_initial_metadata_ id = some q →
      (notifyInitialMetadataSeq s id rs).pending_initial_metadata_ id = some (q ++ rs) := by
  intro rs
  induction rs with
  | nil => intro s q _ hp; simpa using hp
  | cons r rs ih =>
      intro s q hcb hp
      simp only [notifyInitialMetadataSeq]
      have h1 : (NotifyRecvInitialMetadata s id r).1.initial_metadata_cbs_ id = none := by
        rw [NotifyRecvInitialMetadata_no_cb s id r hcb]; exact hcb
      have h2 : (NotifyRecvInitialMetadata s id r).1.pending_initial_metadata_ id =
          some (q ++ [r]) := by
        rw [NotifyRecvInitialMetadata_no_cb s id r hcb]
        simp [hp]
      rw [ih _ _ h1 h2]
      simp

theorem notifyInitialMetadataSeq_from_empty (id : StreamIdentifier)
    (rs : List (StatusOr Metadata)) (s : TransportStreamReceiverImpl)
    (hcb : s.initial_metadata_cbs_ id = none)
    (hp : s.pending_initial_metadata_ id = none) :
    (notifyInitialMetadataSeq s id rs).pending_initial_metadata_ id =
      (if rs.isEmpty then none else some rs) := by
  cases rs with
  | nil => simpa [notifyInitialMetadataSeq] using hp
  | cons r rs =>
      simp only [notifyInitialMetadataSeq, List.isEmpty]
      have h1 : (NotifyRecvInitialMetadata s id r).1.initial_metadata_cbs_ id = none := by
        rw [NotifyRecvInitialMetadata_no_cb s id r hcb]; exact hcb
      have h2 : (NotifyRecvInitialMetadata s id r).1.pending_initial_metadata_ id =
          some [r] := by
        rw [NotifyRecvInitialMetadata_no_cb s id r hcb]
        simp [hp]
      rw [notifyInitialMetadataSeq_pending_some id rs _ [r] h1 h2]
      simp

theorem registerInitialMetadataSeq_drain (id : StreamIdentifier) :
    ∀ (cbs : List Nat) (rs : List (StatusOr Metadata)) (s : TransportStreamReceiverImpl),
      s.initial_metadata_cbs_ id = none →
      s.pending_initial_metadata_ id = (if rs.isEmpty then none else some rs) →
      cbs.length = rs.length →
      (registerInitialMetadataSeq s id cbs).map
          (fun p => (p.1.pending_initial_metadata_ id, p.1.initial_metadata_cbs_ id, p.2)) =
        some (none, none,
          List.zipWith (fun cb r => Event.recvInitialMetadata cb r false) cbs rs) := by
  intro cbs
  induction cbs with
  | nil =>
      intro rs s hcb hp hlen
      cases rs with
      | nil => simp only [registerInitialMetadataSeq, Option.map_some']
               simp only [List.isEmpty] at hp
               simp [hp, hcb]
      | cons r rs => exact absurd hlen (by simp)
  | cons cb cbs ih =>
      intro rs s hcb hp hlen
      cases rs with
      | nil => exact absurd hlen (by simp)
      | cons r rs =>
          simp only [List.isEmpty] at hp
          simp only [registerInitialMetadataSeq]
          rw [RegisterRecvInitialMetadata_pop s id cb r rs hcb hp]
          have hcb2 : ({ s with pending_initial_metadata_ := mapSet s.pending_initial_metadata_ id (if rs.isEmpty then none else some rs) } : TransportStreamReceiverImpl).initial_metadata_cbs_ id = none := hcb
          have hp2 : ({ s with pending_initial_metadata_ := mapSet s.pending_initial_metadata_ id (if rs.isEmpty then none else some rs) } : TransportStreamReceiverImpl).pending_initial_metadata_ id = (if rs.isEmpty then none else some rs) := by
            simp
          have hrec := ih rs _ hcb2 hp2 (by simpa using hlen)
          cases hr : registerInitialMetadataSeq { s with pending_initial_metadata_ := mapSet s.pending_initial_metadata_ id (if rs.isEmpty then none else some rs) } id cbs with
          | none => rw [hr] at hrec; simp at hrec
          | some p =>
              rw [hr] at hrec
              simp only [Option.map_some', Option.some.injEq, Prod.mk.injEq] at hrec
              obtain ⟨hq, hc, hevs⟩ := hrec
              simp only [List.isEmpty_eq_true] at hr
              simp [hr, hq, hc, hevs]

/-- C10: the initial-metadata channel buffers an unbounded FIFO queue per
stream, not a single slot.  With no registered callback, `n` notifies retain
all `n` results in arrival order; `n` subsequent registrations then each
receive the next buffered result in order, the queue entry is erased once the
queue empties, and no callback is left stored. -/
theorem C10_initial_metadata_fifo_queue (s : TransportStreamReceiverImpl)
    (id : StreamIdentifier) (rs : List (StatusOr Metadata)) (cbs : List Nat)
    (hcb : s.initial_metadata_cbs_ id = none)
    (hp : s.pending_initial_metadata_ id = none) (hlen : cbs.length = rs.length) :
    (notifyInitialMetadataSeq s id rs).pending_initial_metadata_ id =
      (if rs.isEmpty then none else some rs) ∧
    (registerInitialMetadataSeq (notifyInitialMetadataSeq s id rs) id cbs).map
        (fun p => (p.1.pending_initial_metadata_ id, p.1.initial_metadata_cbs_ id, p.2)) =
      some (none, none,
        List.zipWith (fun cb r => Event.recvInitialMetadata cb r false) cbs rs) := by
  have hn1 := notifyInitialMetadataSeq_cbs id rs s hcb
  have hn2 := notifyInitialMetadataSeq_from_empty id rs s hcb hp
  exact ⟨hn2, registerInitialMetadataSeq_drain id cbs rs _ hn1 hn2 hlen⟩

/-- C10 witness: two initial-metadata results buffered on stream 2 of a fresh
client receiver, then drained in order by two registrations. -/
theorem C10_initial_metadata_fifo_queue_witness :
    (notifyInitialMetadataSeq (initReceiver true false) 2
        [StatusOr.ok [], StatusOr.ok [("k", "v")]]).pending_initial_metadata_ 2 =
      (if ([StatusOr.ok [], StatusOr.ok [("k", "v")]] :
        List (StatusOr Metadata)).isEmpty then none
       else some [StatusOr.ok [], StatusOr.ok [("k", "v")]]) ∧
    (registerInitialMetadataSeq
        (notifyInitialMetadataSeq (initReceiver true false) 2
          [StatusOr.ok [], StatusOr.ok [("k", "v")]]) 2 [5, 6]).map
        (fun p => (p.1.pending_initial_metadata_ 2, p.1.initial_metadata_cbs_ 2, p.2)) =
      some (none, none,
        List.zipWith (fun cb r => Event.recvInitialMetadata cb r false) [5, 6]
          [StatusOr.ok [], StatusOr.ok [("k", "v")]]) :=
  C10_initial_metadata_fifo_queue (initReceiver true false) 2
    [StatusOr.ok [], StatusOr.ok [("k", "v")]] [5, 6] rfl rfl rfl

end GrpcBinder
